import Mathlib

/-!
Verification of `core/block_validator.go` (crasker/go-usechain).

The file shallowly embeds the block-validation pipeline: `ValidateBody`,
`ValidateState`, `ValidateMiner`, `CalcGasLimit` and `VerifySig`.  External
collaborators (the chain index, the consensus engine, the miner-registry
contract and the secp256k1 primitives) are passed in as records of
uninterpreted functions, exactly as the Go code receives them through its
imports; machine integers are `Nat` with explicit reduction modulo `2^64`
where Go's `uint64` arithmetic can wrap.
-/

set_option maxHeartbeats 1600000
set_option linter.unusedVariables false

abbrev Bytes := List Nat

abbrev Hash := List Nat

abbrev Bloom := List Nat

abbrev StateDB := Nat

/-- `2^64`, the modulus of Go's `uint64` arithmetic. -/
def U64MOD : Nat := 18446744073709551616

/-- Go `uint64` addition (wraps modulo `2^64`). -/
def add64 (a b : Nat) : Nat := (a + b) % U64MOD

/-- Go `uint64` subtraction (two's-complement wrap modulo `2^64`);
faithful for operands below `2^64`. -/
def sub64 (a b : Nat) : Nat := (a + U64MOD - b) % U64MOD

/-- `types.Header`: the header fields read by the validator
(`block_validator.go` never writes a header). -/
structure Header where
  parentHash : Hash
  uncleHash : Hash
  coinbase : Bytes
  root : Hash
  txHash : Hash
  receiptHash : Hash
  bloom : Bloom
  number : Int
  gasLimit : Nat
  gasUsed : Nat
  time : Int
  primaryMiner : Bytes
  difficultyLevel : Int
  minerQrSignature : Bytes
  deriving DecidableEq

/-- `types.Block`: header plus body; `hash` carries the value of
`block.Hash()` (the header digest, computed outside this file's scope). -/
structure Block where
  header : Header
  hash : Hash
  uncles : List Header
  transactions : List Nat
  deriving DecidableEq

/-- `block.NumberU64()`: low 64 bits of the header number. -/
def Block.numberU64 (b : Block) : Nat := b.header.number.toNat % U64MOD

/-- Modelled from the spec: `common.BytesToHash` (package `common` is not
under `src/`): right-aligns the bytes into a 32-byte value, keeping only the
trailing 32 bytes when longer and left-padding with zeroes when shorter. -/
def bytesToHash (b : Bytes) : Hash :=
  let b2 := if 32 < b.length then b.drop (b.length - 32) else b
  List.replicate (32 - b2.length) 0 ++ b2

/-- Modelled from the spec: `common.BytesToAddress` (package `common` is not
under `src/`): right-aligns the bytes into a 20-byte address. -/
def bytesToAddress (b : Bytes) : Bytes :=
  let b2 := if 20 < b.length then b.drop (b.length - 20) else b
  List.replicate (20 - b2.length) 0 ++ b2

/-- The all-zero `common.Address` (`var preMiner common.Address`). -/
def zeroAddress : Bytes := List.replicate 20 0

/-- Modelled from the spec: `minerlist.PreQrLength` (package `minerlist` is
not under `src/`): a `minerQrSignature` is a 65-byte ECDSA signature
concatenated with a 32-byte QR digest, so its fixed total length is 97. -/
def PreQrLength : Nat := 97

/-- Modelled from the spec: `common.BlockInterval` (package `common` is not
under `src/`): the minimum block spacing; the source's own error message and
the spec both fix it at five time units. -/
def BlockInterval : Int := 5

/-- The secp256k1 primitives of package `crypto` (not under `src/`), kept
uninterpreted: `Ecrecover digest sig`, `ToECDSAPub`, `VerifySignature pub
digest sig64` and `PubkeyToAddress`. -/
structure CryptoEnv where
  ecrecover : Bytes → Bytes → Except Unit Bytes
  toECDSAPub : Bytes → Bytes
  verifySignature : Bytes → Bytes → Bytes → Bool
  pubkeyToAddress : Bytes → Bytes

/-- `VerifySig` (`block_validator.go:219-227`): recover a public key from the
signature and digest, returning `false` on recovery failure; otherwise check
the signature's first 64 bytes against the recovered key and compare the
derived address with the claimed miner. -/
def VerifySig (c : CryptoEnv) (sig : Bytes) (digest : Hash) (miner : Bytes) : Bool :=
  match c.ecrecover digest sig with
  | .error _ => false
  | .ok pub =>
    c.verifySignature pub digest (sig.take 64) &&
      decide (c.pubkeyToAddress (c.toECDSAPub pub) = miner)

/-- The miner-registry view of package `minerlist` (not under `src/`), kept
uninterpreted, plus the constants `common.GenesisMinerQrSignature` and
`common.BlockSlot` and the QR chain hash used by `CalQrOrIdNext`. -/
structure MinerEnv where
  readMinerNum : StateDB → Int
  isMiner : StateDB → Bytes → Int → Int → Bool × Int
  isValidMiner : StateDB → Bytes → Bytes → Bytes → Int → Int → Int → Bool × Int × Int
  readMinerAddress : StateDB → Int → Bytes
  qrHash : Bytes → Int → Bytes → Hash
  genesisMinerQrSignature : Bytes
  blockSlot : Int
  crypto : CryptoEnv

/-- The 32-byte QR digest segment of a signature-plus-digest byte sequence:
the bytes from offset 65 onward. -/
def qrDigestOf (sig : Bytes) : Bytes := sig.drop 65

/-- Modelled from the spec: `minerlist.CalQrOrIdNext` is not under `src/`.
Per the spec (sections 4.3 step 5 and 6) the next QR value is the chain hash
of the previous coinbase, the block number and the 32-byte QR digest segment
(offset 65 onward) of the previous round's signature-plus-digest sequence;
the spec states no failure condition for it, so it always succeeds. -/
def calQrOrIdNext (env : MinerEnv) (preCoinbase : Bytes) (blockNumber : Int)
    (preQrSignature : Bytes) : Except Unit Hash :=
  .ok (env.qrHash preCoinbase blockNumber (qrDigestOf preQrSignature))

/-- `preQrSignature` as computed at `block_validator.go:135-139`: the
parent's `minerQrSignature`, replaced by `common.GenesisMinerQrSignature`
when the block number is 1. -/
def preQrSigOf (env : MinerEnv) (b p : Block) : Bytes :=
  if b.header.number = 1 then env.genesisMinerQrSignature else p.header.minerQrSignature

/-- The QR value `ValidateMiner` expects (`block_validator.go:141`). -/
def expectedQr (env : MinerEnv) (b p : Block) : Hash :=
  env.qrHash p.header.coinbase b.header.number (qrDigestOf (preQrSigOf env b p))

/-- The rotation counter `n := tstampSub / common.BlockSlot`
(`block_validator.go:140`); Go `big.Int.Div` is Euclidean division. -/
def rotationCountOf (env : MinerEnv) (b p : Block) : Int :=
  Int.ediv (b.header.time - p.header.time) env.blockSlot

/-- The `minerlist.IsValidMiner` result for this block
(`block_validator.go:159`): validity flag, level, previous miner index. -/
def ivmOf (env : MinerEnv) (st : StateDB) (b p : Block) : Bool × Int × Int :=
  env.isValidMiner st b.header.coinbase p.header.coinbase (preQrSigOf env b p)
    b.header.number (env.readMinerNum st) (rotationCountOf env b p)

/-- The expected primary miner (`block_validator.go:165-168`): the registry
address at the previous miner index, or the zero address when the registry
is empty. -/
def preMinerOf (env : MinerEnv) (st : StateDB) (b p : Block) : Bytes :=
  if env.readMinerNum st ≠ 0 then bytesToAddress (env.readMinerAddress st (ivmOf env st b p).2.2)
  else zeroAddress

/-- The typed failures of `ValidateMiner`, in the order the source can
produce them; mismatch errors carry the values the `fmt.Errorf` calls
format. -/
inductive MinerError where
  | blockTooFast
  | minerPunished
  | minerNotRegistered
  | qrChainError (e : Unit)
  | qrLengthInvalid
  | qrMismatch
  | invalidQrSignature
  | invalidMiner
  | primaryMinerMismatch (haveAddr wantAddr : Bytes)
  | difficultyLevelMismatch (haveLevel wantLevel : Int)
  deriving DecidableEq

/-- `block_validator.go:146-158`: the QR/signature gate, run only for block
numbers above 1 — signature length, trailing QR digest, leading ECDSA
signature, in that order; `none` when the gate passes or is skipped. -/
def qrGateOf (env : MinerEnv) (b : Block) (qr : Hash) : Option MinerError :=
  if 1 < b.header.number then
    if b.header.minerQrSignature.length ≠ PreQrLength then some .qrLengthInvalid
    else if qr ≠ bytesToHash (qrDigestOf b.header.minerQrSignature) then some .qrMismatch
    else if VerifySig env.crypto (b.header.minerQrSignature.take 65) qr b.header.coinbase = false
      then some .invalidQrSignature
    else none
  else none

/-- `block_validator.go:159-183`: the gates after the QR/signature gate —
`IsValidMiner`, the primary-miner continuity check and the difficulty-level
check. -/
def minerFinalGates (env : MinerEnv) (st : StateDB) (b p : Block) : Except MinerError Unit :=
  let totalMinerNum := env.readMinerNum st
  let ivm := ivmOf env st b p
  if ivm.1 = false then .error .invalidMiner
  else
    let preMiner := preMinerOf env st b p
    if b.header.primaryMiner ≠ preMiner ∧ totalMinerNum ≠ 0 then
      .error (.primaryMinerMismatch b.header.primaryMiner preMiner)
    else if b.header.number = 1 then
      if b.header.difficultyLevel ≠ 0 then
        .error (.difficultyLevelMismatch b.header.difficultyLevel 0)
      else .ok ()
    else if b.header.difficultyLevel < (ivmOf env st b p).2.1 then
      .error (.difficultyLevelMismatch b.header.difficultyLevel (ivmOf env st b p).2.1)
    else .ok ()

/-- `block_validator.go:146-183`: the gates of `ValidateMiner` that run after
the expected QR value `qr` has been computed. -/
def minerGatesAfterQr (env : MinerEnv) (st : StateDB) (b p : Block) (qr : Hash) :
    Except MinerError Unit :=
  match qrGateOf env b qr with
  | some e => .error e
  | none => minerFinalGates env st b p

/-- `BlockValidator.ValidateMiner` (`block_validator.go:111-184`): the
timing gate, the `IsMiner` eligibility gate (distinguishing punished from
unregistered), then the QR computation and the remaining gates. -/
def validateMiner (env : MinerEnv) (st : StateDB) (b p : Block) : Except MinerError Unit :=
  let tstampSub := b.header.time - p.header.time
  if tstampSub < BlockInterval then .error .blockTooFast
  else
    let im := env.isMiner st b.header.coinbase (env.readMinerNum st) b.header.number
    if im.1 = false then
      if im.2 = 1 then .error .minerPunished else .error .minerNotRegistered
    else
      match calQrOrIdNext env p.header.coinbase b.header.number (preQrSigOf env b p) with
      | .error e => .error (.qrChainError e)
      | .ok qr => minerGatesAfterQr env st b p qr

/-- The typed failures of `ValidateBody`; uncle-verification errors from the
consensus engine are surfaced unchanged, mismatches carry have/want. -/
inductive BodyError where
  | knownBlock
  | unknownAncestor
  | prunedAncestor
  | uncleVerifyError (e : Nat)
  | uncleHashMismatch (haveHash wantHash : Hash)
  | txHashMismatch (haveHash wantHash : Hash)
  deriving DecidableEq

/-- The collaborators of `ValidateBody`: the chain index (`HasBlockAndState`,
`HasBlock`), the `(statedb, err)` pair returned by `bc.State()`, the
consensus engine's `VerifyUncles` and the commitment hashes of package
`types`, all uninterpreted. -/
structure BodyEnv where
  hasBlockAndState : Hash → Nat → Bool
  hasBlock : Hash → Nat → Bool
  stateResult : Option StateDB × Option Nat
  verifyUncles : Block → Option StateDB → Option Nat
  calcUncleHash : List Header → Hash
  deriveSha : List Nat → Hash

/-- `BlockValidator.ValidateBody` (`block_validator.go:57-81`): known-block
and ancestor linkage checks, then `VerifyUncles` (with the state whose
retrieval error is discarded: `state, _ := v.bc.State()`), then the
uncle-root and transaction-root comparisons. -/
def validateBody (env : BodyEnv) (b : Block) : Except BodyError Unit :=
  if env.hasBlockAndState b.hash b.numberU64 then .error .knownBlock
  else if env.hasBlockAndState b.header.parentHash (sub64 b.numberU64 1) = false then
    if env.hasBlock b.header.parentHash (sub64 b.numberU64 1) = false then
      .error .unknownAncestor
    else .error .prunedAncestor
  else
    match env.verifyUncles b env.stateResult.1 with
    | some e => .error (.uncleVerifyError e)
    | none =>
      if env.calcUncleHash b.uncles ≠ b.header.uncleHash then
        .error (.uncleHashMismatch (env.calcUncleHash b.uncles) b.header.uncleHash)
      else if env.deriveSha b.transactions ≠ b.header.txHash then
        .error (.txHashMismatch (env.deriveSha b.transactions) b.header.txHash)
      else .ok ()

/-- The typed failures of `ValidateState`; each carries the header's declared
(remote) value and the recomputed (local) value, as the `fmt.Errorf` calls
format them. -/
inductive StateError where
  | gasUsedMismatch (remoteVal localVal : Nat)
  | bloomMismatch (remoteVal localVal : Bloom)
  | receiptRootMismatch (remoteVal localVal : Hash)
  | stateRootMismatch (remoteVal localVal : Hash)
  deriving DecidableEq

/-- The collaborators of `ValidateState`: `types.CreateBloom`,
`types.DeriveSha`, `statedb.IntermediateRoot` and the chain configuration's
EIP-158 flag, all uninterpreted. -/
structure StateEnv where
  createBloom : List Nat → Bloom
  deriveSha : List Nat → Hash
  intermediateRoot : StateDB → Bool → Hash
  isEIP158 : Int → Bool

/-- `BlockValidator.ValidateState` (`block_validator.go:87-109`): gas-used,
bloom, receipt-root and state-root comparisons, first failure returned. -/
def validateState (env : StateEnv) (b parent : Block) (st : StateDB)
    (receipts : List Nat) (usedGas : Nat) : Except StateError Unit :=
  if b.header.gasUsed ≠ usedGas then .error (.gasUsedMismatch b.header.gasUsed usedGas)
  else
    let rbloom := env.createBloom receipts
    if rbloom ≠ b.header.bloom then .error (.bloomMismatch b.header.bloom rbloom)
    else
      let receiptSha := env.deriveSha receipts
      if receiptSha ≠ b.header.receiptHash then
        .error (.receiptRootMismatch b.header.receiptHash receiptSha)
      else
        let root := env.intermediateRoot st (env.isEIP158 b.header.number)
        if b.header.root ≠ root then .error (.stateRootMismatch b.header.root root)
        else .ok ()

/-- `params.GasLimitBoundDivisor`; the source's own comments
(`block_validator.go:189,192`) fix it at 1024. -/
def GasLimitBoundDivisor : Nat := 1024

/-- Modelled from the spec: `params.MinGasLimit` (package `params` is not
under `src/`): the protocol's minimum gas limit, 5000. -/
def MinGasLimit : Nat := 5000

/-- Modelled from the spec: `params.TargetGasLimit` (package `params` is not
under `src/`): the miner's artificial target, the genesis gas limit 4712388. -/
def TargetGasLimit : Nat := 4712388

/-- `contrib := (parent.GasUsed() + parent.GasUsed()/2) / 1024`
(`block_validator.go:190`), in `uint64` arithmetic. -/
def gasContrib (parent : Block) : Nat :=
  add64 parent.header.gasUsed (parent.header.gasUsed / 2) / GasLimitBoundDivisor

/-- `decay := parent.GasLimit()/1024 - 1` (`block_validator.go:193`), in
`uint64` arithmetic. -/
def gasDecay (parent : Block) : Nat :=
  sub64 (parent.header.gasLimit / GasLimitBoundDivisor) 1

/-- `CalcGasLimit` (`block_validator.go:188-215`): the gas-limit feedback
controller, in `uint64` arithmetic. -/
def CalcGasLimit (parent : Block) : Nat :=
  let contrib := gasContrib parent
  let decay := gasDecay parent
  let limit0 := add64 (sub64 parent.header.gasLimit decay) contrib
  let limit1 := if limit0 < MinGasLimit then MinGasLimit else limit0
  if limit1 < TargetGasLimit then
    let limit2 := add64 parent.header.gasLimit decay
    if TargetGasLimit < limit2 then TargetGasLimit else limit2
  else limit1

deriving instance DecidableEq for Except

/-- Recognizes the `BlockTooFast` verdict. -/
def isBlockTooFast : Except MinerError Unit → Bool
  | .error .blockTooFast => true
  | _ => false

/-- Recognizes the three verdicts of the QR/signature gate
(`block_validator.go:146-158`). -/
def isQrGateError : Except MinerError Unit → Bool
  | .error .qrLengthInvalid => true
  | .error .qrMismatch => true
  | .error .invalidQrSignature => true
  | _ => false

def st0 : StateDB := 0

/-- A crypto environment whose recovery always succeeds and which derives
the address `[7]` from every recovered key. -/
def crypto0 : CryptoEnv :=
  { ecrecover := fun _ _ => .ok [1]
    toECDSAPub := fun b => b
    verifySignature := fun _ _ _ => true
    pubkeyToAddress := fun _ => [7] }

/-- A crypto environment whose recovery always fails. -/
def cryptoFail : CryptoEnv :=
  { ecrecover := fun _ _ => .error ()
    toECDSAPub := fun b => b
    verifySignature := fun _ _ _ => true
    pubkeyToAddress := fun _ => [7] }

/-- A miner environment with an empty registry count that accepts every
candidate with computed level 2, and whose QR chain hash is constantly the
32-byte zero digest. -/
def envC : MinerEnv :=
  { readMinerNum := fun _ => 0
    isMiner := fun _ _ _ _ => (true, 0)
    isValidMiner := fun _ _ _ _ _ _ _ => (true, 2, 0)
    readMinerAddress := fun _ _ => []
    qrHash := fun _ _ _ => List.replicate 32 0
    genesisMinerQrSignature := List.replicate 97 0
    blockSlot := 5
    crypto := crypto0 }

def header0 : Header :=
  { parentHash := [], uncleHash := [], coinbase := [], root := [], txHash := []
    receiptHash := [], bloom := [], number := 0, gasLimit := 0, gasUsed := 0
    time := 0, primaryMiner := [], difficultyLevel := 0, minerQrSignature := [] }

def block0 : Block := { header := header0, hash := [], uncles := [], transactions := [] }

/-- Candidate block at height 2 declaring difficulty level 5, whose QR
signature is well formed for `envC`. -/
def blockC : Block :=
  { block0 with header := { header0 with
      number := 2, time := 10, coinbase := [7], difficultyLevel := 5,
      minerQrSignature := List.replicate 97 0 } }

def parentC : Block :=
  { block0 with header := { header0 with
      coinbase := [9], minerQrSignature := List.replicate 97 0 } }

/-- Candidate block at height 2 whose `minerQrSignature` has the wrong
length. -/
def blockShortSig : Block :=
  { block0 with header := { header0 with
      number := 2, time := 10, coinbase := [7], minerQrSignature := [1, 2] } }

/-- A body environment in which no block has state but every block is
indexed: every ancestor is pruned. -/
def bodyEnvPruned : BodyEnv :=
  { hasBlockAndState := fun _ _ => false
    hasBlock := fun _ _ => true
    stateResult := (none, none)
    verifyUncles := fun _ _ => none
    calcUncleHash := fun _ => []
    deriveSha := fun _ => [] }

/-- A body environment in which exactly the hash `[1]` has state, whose
state retrieval reports error 9, whose uncle verification fails with error 3
and whose recomputed uncle root `[5]` differs from declared roots. -/
def bodyEnvUncle : BodyEnv :=
  { hasBlockAndState := fun h _ => h == [1]
    hasBlock := fun _ _ => true
    stateResult := (none, some 9)
    verifyUncles := fun _ _ => some 3
    calcUncleHash := fun _ => [5]
    deriveSha := fun _ => [] }

/-- A block whose parent hash `[1]` has state while the block itself does
not, and whose declared uncle root `[6]` differs from the recomputed `[5]`
of `bodyEnvUncle`. -/
def blockUncle : Block :=
  { block0 with header := { header0 with parentHash := [1], uncleHash := [6] } }

def blockGas1024 : Block :=
  { block0 with header := { header0 with gasLimit := 1024 } }

def blockGas500 : Block :=
  { block0 with header := { header0 with gasLimit := 500 } }

def blockGasW : Block :=
  { block0 with header := { header0 with gasLimit := 100000, gasUsed := 50000 } }

theorem qrGateOf_cases (env : MinerEnv) (b : Block) (qr : Hash) :
    qrGateOf env b qr = none ∨ qrGateOf env b qr = some .qrLengthInvalid ∨
      qrGateOf env b qr = some .qrMismatch ∨ qrGateOf env b qr = some .invalidQrSignature := by
  unfold qrGateOf
  split_ifs <;> simp

theorem minerFinalGates_ne_blockTooFast (env : MinerEnv) (st : StateDB) (b p : Block) :
    minerFinalGates env st b p ≠ .error .blockTooFast := by
  unfold minerFinalGates
  split_ifs <;> (try simp) <;> split_ifs <;> simp

theorem minerGatesAfterQr_ne_blockTooFast (env : MinerEnv) (st : StateDB) (b p : Block)
    (qr : Hash) : minerGatesAfterQr env st b p qr ≠ .error .blockTooFast := by
  unfold minerGatesAfterQr
  rcases qrGateOf_cases env b qr with h | h | h | h <;>
    simp [h, minerFinalGates_ne_blockTooFast]

theorem isBlockTooFast_eq_false {r : Except MinerError Unit}
    (h : r ≠ .error .blockTooFast) : isBlockTooFast r = false := by
  cases r with
  | ok a => rfl
  | error e => cases e <;> simp_all [isBlockTooFast]

theorem validateMiner_not_blockTooFast (env : MinerEnv) (st : StateDB) (b p : Block)
    (h1 : ¬(b.header.time - p.header.time < BlockInterval)) :
    isBlockTooFast (validateMiner env st b p) = false := by
  unfold validateMiner calQrOrIdNext
  rw [if_neg h1]
  by_cases h2 : (env.isMiner st b.header.coinbase (env.readMinerNum st) b.header.number).1 = false
  · by_cases h3 : (env.isMiner st b.header.coinbase (env.readMinerNum st) b.header.number).2 = 1 <;>
      simp [h2, h3, isBlockTooFast]
  · simp only [h2, if_false]
    exact isBlockTooFast_eq_false (minerGatesAfterQr_ne_blockTooFast env st b p _)

/-- C6: `ValidateMiner` fails with `BlockTooFast` exactly when the block's
timestamp minus the parent's timestamp is strictly below the minimum block
interval; a difference of at least the interval can never produce this
verdict. -/
theorem validateMiner_blockTooFast_iff (env : MinerEnv) (st : StateDB) (b p : Block) :
    isBlockTooFast (validateMiner env st b p) = true ↔
      b.header.time - p.header.time < BlockInterval := by
  by_cases h1 : b.header.time - p.header.time < BlockInterval
  · simp [validateMiner, h1, isBlockTooFast]
  · simp [validateMiner_not_blockTooFast env st b p h1, h1]

/-- C4: `VerifySig` returns `false` whenever public-key recovery fails, and
returns `true` exactly when recovery succeeds, the signature's first 64
bytes verify against the recovered key, and the address derived from the
recovered key equals the claimed address. -/
theorem verifySig_characterization (c : CryptoEnv) (sig : Bytes) (dg : Hash) (miner : Bytes) :
    (∀ e : Unit, c.ecrecover dg sig = .error e → VerifySig c sig dg miner = false) ∧
    (VerifySig c sig dg miner = true ↔
      ∃ pub, c.ecrecover dg sig = .ok pub ∧
        c.verifySignature pub dg (sig.take 64) = true ∧
        c.pubkeyToAddress (c.toECDSAPub pub) = miner) := by
  cases hrec : c.ecrecover dg sig with
  | error e =>
    refine ⟨fun _ _ => by simp [VerifySig, hrec], ?_⟩
    simp [VerifySig, hrec]
  | ok pub =>
    refine ⟨fun e he => by simp [hrec] at he, ?_⟩
    simp [VerifySig, hrec, Bool.and_eq_true, decide_eq_true_iff]

/-- C4 witness: with a crypto environment whose recovery always fails,
`VerifySig` returns `false`. -/
theorem verifySig_characterization_witness :
    VerifySig cryptoFail [1, 2] [3] [7] = false :=
  (verifySig_characterization cryptoFail [1, 2] [3] [7]).1 () rfl

/-- C8: `ValidateState` checks, in order, gas-used, log bloom, receipt root
and state root, returning on the first failure with an error carrying the
header's declared value and the recomputed value, and succeeds exactly when
all four recomputed values match the header's declarations. -/
theorem validateState_characterization (env : StateEnv) (b parent : Block) (st : StateDB)
    (receipts : List Nat) (usedGas : Nat) :
    (validateState env b parent st receipts usedGas = .ok () ↔
      (b.header.gasUsed = usedGas ∧ env.createBloom receipts = b.header.bloom ∧
       env.deriveSha receipts = b.header.receiptHash ∧
       b.header.root = env.intermediateRoot st (env.isEIP158 b.header.number))) ∧
    (validateState env b parent st receipts usedGas =
        .error (.gasUsedMismatch b.header.gasUsed usedGas) ↔
      b.header.gasUsed ≠ usedGas) ∧
    (validateState env b parent st receipts usedGas =
        .error (.bloomMismatch b.header.bloom (env.createBloom receipts)) ↔
      (b.header.gasUsed = usedGas ∧ env.createBloom receipts ≠ b.header.bloom)) ∧
    (validateState env b parent st receipts usedGas =
        .error (.receiptRootMismatch b.header.receiptHash (env.deriveSha receipts)) ↔
      (b.header.gasUsed = usedGas ∧ env.createBloom receipts = b.header.bloom ∧
       env.deriveSha receipts ≠ b.header.receiptHash)) ∧
    (validateState env b parent st receipts usedGas =
        .error (.stateRootMismatch b.header.root
          (env.intermediateRoot st (env.isEIP158 b.header.number))) ↔
      (b.header.gasUsed = usedGas ∧ env.createBloom receipts = b.header.bloom ∧
       env.deriveSha receipts = b.header.receiptHash ∧
       b.header.root ≠ env.intermediateRoot st (env.isEIP158 b.header.number))) := by
  by_cases h1 : b.header.gasUsed = usedGas <;>
    by_cases h2 : env.createBloom receipts = b.header.bloom <;>
      by_cases h3 : env.deriveSha receipts = b.header.receiptHash <;>
        by_cases h4 : b.header.root = env.intermediateRoot st (env.isEIP158 b.header.number) <;>
          simp_all [validateState]

/-- C7: `ValidateBody` returns `KnownBlock` when the block's hash and number
already have state; otherwise `UnknownAncestor` when the parent's hash and
number are absent from the block index entirely, and `PrunedAncestor` when
the parent is indexed but its state is gone — all before any uncle or
body-hash check (the conclusions hold for every uncle/hash collaborator).
The hypothesis records that indexed state implies an indexed block. -/
theorem validateBody_linkage (env : BodyEnv) (b : Block)
    (hcoh : ∀ h n, env.hasBlockAndState h n = true → env.hasBlock h n = true) :
    (env.hasBlockAndState b.hash b.numberU64 = true →
      validateBody env b = .error .knownBlock) ∧
    (env.hasBlockAndState b.hash b.numberU64 = false →
      env.hasBlock b.header.parentHash (sub64 b.numberU64 1) = false →
      validateBody env b = .error .unknownAncestor) ∧
    (env.hasBlockAndState b.hash b.numberU64 = false →
      env.hasBlock b.header.parentHash (sub64 b.numberU64 1) = true →
      env.hasBlockAndState b.header.parentHash (sub64 b.numberU64 1) = false →
      validateBody env b = .error .prunedAncestor) := by
  refine ⟨fun h1 => ?_, fun h1 h2 => ?_, fun h1 h2 h3 => ?_⟩
  · simp [validateBody, h1]
  · have h3 : env.hasBlockAndState b.header.parentHash (sub64 b.numberU64 1) = false := by
      cases hx : env.hasBlockAndState b.header.parentHash (sub64 b.numberU64 1) with
      | false => rfl
      | true => exact absurd (hcoh _ _ hx) (by simp [h2])
    simp [validateBody, h1, h2, h3]
  · simp [validateBody, h1, h2, h3]

/-- C7 witness: in a chain view where every block is indexed but none has
state, a block is rejected with `PrunedAncestor`. -/
theorem validateBody_linkage_witness :
    validateBody bodyEnvPruned block0 = .error .prunedAncestor :=
  (validateBody_linkage bodyEnvPruned block0
    (fun h n hx => by simp [bodyEnvPruned] at hx)).2.2 rfl rfl rfl

/-- C9: `ValidateBody` ignores the error component of `bc.State()` — its
verdict is unchanged under any replacement of that component — and once the
linkage checks pass, a failing `VerifyUncles` verdict is surfaced unchanged
before the uncle-root comparison, even when the recomputed uncle root
differs from the header's declared one. -/
theorem validateBody_state_and_uncles (env : BodyEnv) (b : Block) (e : Option Nat) (er : Nat) :
    validateBody { env with stateResult := (env.stateResult.1, e) } b = validateBody env b ∧
    (env.hasBlockAndState b.hash b.numberU64 = false →
      env.hasBlockAndState b.header.parentHash (sub64 b.numberU64 1) = true →
      env.verifyUncles b env.stateResult.1 = some er →
      env.calcUncleHash b.uncles ≠ b.header.uncleHash →
      validateBody env b = .error (.uncleVerifyError er)) := by
  constructor
  · rfl
  · intro h1 h2 h3 h4
    simp [validateBody, h1, h2, h3]

/-- C9 witness: with a state snapshot whose retrieval reported an error, an
uncle-verification failure (error 3) is surfaced even though the uncle root
also mismatches. -/
theorem validateBody_state_and_uncles_witness :
    validateBody bodyEnvUncle blockUncle = .error (.uncleVerifyError 3) :=
  (validateBody_state_and_uncles bodyEnvUncle blockUncle none 3).2 rfl rfl rfl (by decide)

theorem validateMiner_eq_gates (env : MinerEnv) (st : StateDB) (b p : Block)
    (htime : BlockInterval ≤ b.header.time - p.header.time)
    (hminer : (env.isMiner st b.header.coinbase (env.readMinerNum st) b.header.number).1 = true) :
    validateMiner env st b p = minerGatesAfterQr env st b p (expectedQr env b p) := by
  unfold validateMiner calQrOrIdNext
  rw [if_neg (not_lt.mpr htime)]
  simp [hminer, expectedQr]

theorem bytesToHash_len32 (l : Bytes) (hl : l.length = 32) : bytesToHash l = l := by
  unfold bytesToHash
  simp [hl]

theorem qrGateOf_none_of (env : MinerEnv) (b : Block) (qr : Hash)
    (hqr : 1 < b.header.number →
      b.header.minerQrSignature.length = PreQrLength ∧
      b.header.minerQrSignature.drop 65 = qr ∧
      VerifySig env.crypto (b.header.minerQrSignature.take 65) qr b.header.coinbase = true) :
    qrGateOf env b qr = none := by
  unfold qrGateOf
  by_cases hn : 1 < b.header.number
  · obtain ⟨h1, h2, h3⟩ := hqr hn
    have hlen32 : (qrDigestOf b.header.minerQrSignature).length = 32 := by
      simp [qrDigestOf, h1, PreQrLength]
    have hbh : bytesToHash (qrDigestOf b.header.minerQrSignature) = qr := by
      rw [bytesToHash_len32 _ hlen32]
      exact h2
    simp [hn, h1, hbh, h3]
  · simp [hn]

theorem minerFinalGates_not_qrGateError (env : MinerEnv) (st : StateDB) (b p : Block) :
    isQrGateError (minerFinalGates env st b p) = false := by
  unfold minerFinalGates
  split_ifs <;> (try simp [isQrGateError]) <;> split_ifs <;> simp [isQrGateError]

/-- C2: once the timing and eligibility gates pass, the expected QR value
against which `ValidateMiner` runs its remaining gates is the QR chain hash
applied to the parent's coinbase, the block number, and `qr(parent)` — where
`qr(parent)` is the genesis constant's 32-byte digest segment when the block
number equals 1, and otherwise the 32-byte digest segment of the parent's
`minerQrSignature` from byte offset 65 onward, never the whole
signature-plus-digest byte sequence. -/
theorem validateMiner_qr_derivation (env : MinerEnv) (st : StateDB) (b p : Block)
    (htime : BlockInterval ≤ b.header.time - p.header.time)
    (hminer : (env.isMiner st b.header.coinbase (env.readMinerNum st) b.header.number).1 = true) :
    validateMiner env st b p =
      minerGatesAfterQr env st b p
        (env.qrHash p.header.coinbase b.header.number
          (if b.header.number = 1 then qrDigestOf env.genesisMinerQrSignature
           else qrDigestOf p.header.minerQrSignature)) := by
  rw [validateMiner_eq_gates env st b p htime hminer]
  unfold expectedQr preQrSigOf
  rw [apply_ite qrDigestOf]

/-- C2 witness: the derivation at a concrete environment and block pair. -/
theorem validateMiner_qr_derivation_witness :
    validateMiner envC st0 blockC parentC =
      minerGatesAfterQr envC st0 blockC parentC
        (envC.qrHash parentC.header.coinbase blockC.header.number
          (if blockC.header.number = 1 then qrDigestOf envC.genesisMinerQrSignature
           else qrDigestOf parentC.header.minerQrSignature)) :=
  validateMiner_qr_derivation envC st0 blockC parentC (by decide) rfl

/-- C5: for block numbers above 1, after the timing and eligibility gates,
the QR/signature gate fails with `QrLengthInvalid` when the signature length
differs from `PreQrLength` (for every crypto collaborator, i.e. before any
cryptographic computation), then with `QrMismatch` when the trailing 32
bytes differ from the expected QR value, then with `InvalidQrSignature` when
the leading 65 bytes fail signature verification against the expected QR
value and the coinbase; at block number 1 the gate is skipped entirely. -/
theorem validateMiner_qr_gate_order (env : MinerEnv) (st : StateDB) (b p : Block)
    (htime : BlockInterval ≤ b.header.time - p.header.time)
    (hminer : (env.isMiner st b.header.coinbase (env.readMinerNum st) b.header.number).1 = true) :
    (1 < b.header.number →
      (b.header.minerQrSignature.length ≠ PreQrLength →
        validateMiner env st b p = .error .qrLengthInvalid) ∧
      (b.header.minerQrSignature.length = PreQrLength →
        b.header.minerQrSignature.drop 65 ≠ expectedQr env b p →
        validateMiner env st b p = .error .qrMismatch) ∧
      (b.header.minerQrSignature.length = PreQrLength →
        b.header.minerQrSignature.drop 65 = expectedQr env b p →
        VerifySig env.crypto (b.header.minerQrSignature.take 65) (expectedQr env b p)
            b.header.coinbase = false →
        validateMiner env st b p = .error .invalidQrSignature)) ∧
    (b.header.number = 1 → isQrGateError (validateMiner env st b p) = false) := by
  rw [validateMiner_eq_gates env st b p htime hminer]
  constructor
  · intro hn
    have hlen32 : b.header.minerQrSignature.length = PreQrLength →
        (qrDigestOf b.header.minerQrSignature).length = 32 := by
      intro hlen
      simp [qrDigestOf, hlen, PreQrLength]
    refine ⟨fun hlen => ?_, fun hlen hne => ?_, fun hlen heq hvs => ?_⟩
    · unfold minerGatesAfterQr qrGateOf
      simp [hn, hlen]
    · unfold minerGatesAfterQr qrGateOf
      rw [bytesToHash_len32 _ (hlen32 hlen)]
      simp [hn, hlen, qrDigestOf, Ne.symm hne]
    · unfold minerGatesAfterQr qrGateOf
      rw [bytesToHash_len32 _ (hlen32 hlen)]
      simp [hn, hlen, qrDigestOf, heq, hvs]
  · intro hn1
    unfold minerGatesAfterQr
    rw [show qrGateOf env b (expectedQr env b p) = none from by unfold qrGateOf; simp [hn1]]
    exact minerFinalGates_not_qrGateError env st b p

/-- C5 witness: a height-2 block whose `minerQrSignature` has the wrong
length is rejected with `QrLengthInvalid`. -/
theorem validateMiner_qr_gate_order_witness :
    validateMiner envC st0 blockShortSig parentC = .error .qrLengthInvalid :=
  ((validateMiner_qr_gate_order envC st0 blockShortSig parentC (by decide) rfl).1
    (by decide)).1 (by decide)

/-- C1 counterexample: the candidate block declares `difficultyLevel` 5
while the computed level is 2 — declared strictly exceeds computed — yet
`ValidateMiner` accepts the block, contrary to the claim that a declared
level above the computed one is rejected with `DifficultyLevelMismatch`. -/
theorem validateMiner_difficulty_counterexample :
    validateMiner envC st0 blockC parentC = .ok () ∧
    blockC.header.difficultyLevel = 5 ∧
    (ivmOf envC st0 blockC parentC).2.1 = 2 :=
  ⟨by decide, rfl, rfl⟩

/-- C1 (amended): once every earlier gate passes, at block number 1
`ValidateMiner` fails with `DifficultyLevelMismatch` exactly when the
declared `difficultyLevel` is nonzero; for block numbers above 1 it fails
with `DifficultyLevelMismatch` exactly when the declared `difficultyLevel`
is strictly below the level computed by `IsValidMiner` (declared at or above
the computed level is accepted by this gate). -/
theorem validateMiner_difficulty_gate (env : MinerEnv) (st : StateDB) (b p : Block)
    (htime : BlockInterval ≤ b.header.time - p.header.time)
    (hminer : (env.isMiner st b.header.coinbase (env.readMinerNum st) b.header.number).1 = true)
    (hqr : 1 < b.header.number →
      b.header.minerQrSignature.length = PreQrLength ∧
      b.header.minerQrSignature.drop 65 = expectedQr env b p ∧
      VerifySig env.crypto (b.header.minerQrSignature.take 65) (expectedQr env b p)
          b.header.coinbase = true)
    (hvalid : (ivmOf env st b p).1 = true)
    (hprim : b.header.primaryMiner = preMinerOf env st b p ∨ env.readMinerNum st = 0) :
    (b.header.number = 1 →
      validateMiner env st b p =
        if b.header.difficultyLevel ≠ 0 then
          .error (.difficultyLevelMismatch b.header.difficultyLevel 0)
        else .ok ()) ∧
    (1 < b.header.number →
      validateMiner env st b p =
        if b.header.difficultyLevel < (ivmOf env st b p).2.1 then
          .error (.difficultyLevelMismatch b.header.difficultyLevel (ivmOf env st b p).2.1)
        else .ok ()) := by
  rw [validateMiner_eq_gates env st b p htime hminer]
  unfold minerGatesAfterQr
  rw [qrGateOf_none_of env b _ hqr]
  unfold minerFinalGates
  have hne : ¬(b.header.primaryMiner ≠ preMinerOf env st b p ∧ env.readMinerNum st ≠ 0) := by
    rcases hprim with h | h
    · exact fun hc => hc.1 h
    · exact fun hc => hc.2 h
  constructor
  · intro hn1
    simp [hvalid, hne, hn1]
  · intro hn
    have hn1 : ¬(b.header.number = 1) := by omega
    simp [hvalid, hne, hn1]

/-- C1 witness: the amended gate evaluated at a concrete accepted block. -/
theorem validateMiner_difficulty_gate_witness :
    validateMiner envC st0 blockC parentC =
      if blockC.header.difficultyLevel < (ivmOf envC st0 blockC parentC).2.1 then
        .error (.difficultyLevelMismatch blockC.header.difficultyLevel
          (ivmOf envC st0 blockC parentC).2.1)
      else .ok () :=
  (validateMiner_difficulty_gate envC st0 blockC parentC (by decide) rfl
    (fun _ => ⟨by decide, by decide, by decide⟩) rfl (Or.inr rfl)).2 (by decide)

/-- C10: `decay` is computed in `uint64` arithmetic as
`parentGasLimit / GasLimitBoundDivisor - 1`; whenever the parent's gas limit
is strictly below the divisor the subtraction wraps modulo `2^64`, so
`decay = 2^64 - 1` and the following `parentGasLimit - decay` subtraction
wraps as well (the minuend is below the subtrahend); for
`parentGasLimit >= GasLimitBoundDivisor` (and below `2^64`) no wrap occurs
and `decay` is the exact integer `parentGasLimit / 1024 - 1`. -/
theorem gasDecay_wrap (p : Block) :
    (p.header.gasLimit < GasLimitBoundDivisor →
      gasDecay p = U64MOD - 1 ∧
      p.header.gasLimit < gasDecay p ∧
      sub64 p.header.gasLimit (gasDecay p) = p.header.gasLimit + 1) ∧
    (GasLimitBoundDivisor ≤ p.header.gasLimit → p.header.gasLimit < U64MOD →
      gasDecay p = p.header.gasLimit / GasLimitBoundDivisor - 1 ∧
      gasDecay p < p.header.gasLimit) := by
  unfold gasDecay sub64 U64MOD GasLimitBoundDivisor
  constructor
  · intro h
    omega
  · intro h1 h2
    omega

/-- C10 witness: a parent gas limit of 500 wraps `decay` to `2^64 - 1`. -/
theorem gasDecay_wrap_witness :
    gasDecay blockGas500 = U64MOD - 1 ∧
    blockGas500.header.gasLimit < gasDecay blockGas500 ∧
    sub64 blockGas500.header.gasLimit (gasDecay blockGas500) =
      blockGas500.header.gasLimit + 1 :=
  (gasDecay_wrap blockGas500).1 (by decide)

/-- C3 counterexample: for a parent with gas limit 1024 and gas used 0,
`CalcGasLimit` returns 1024, strictly below `MinGasLimit` — the second
branch overwrites the minimum clamp — refuting the claim that the result is
at least `MinGasLimit` for every parent. -/
theorem calcGasLimit_min_counterexample :
    CalcGasLimit blockGas1024 = 1024 ∧ CalcGasLimit blockGas1024 < MinGasLimit :=
  ⟨by decide, by decide⟩

/-- C3 (amended): for every parent whose gas limit lies between
`MinGasLimit` and `2^63` and whose gas used does not exceed its gas limit,
`CalcGasLimit` returns at least `MinGasLimit`, and its distance from the
parent's gas limit is at most `decay = parentGasLimit / 1024 - 1` (stated as
two one-sided inequalities over `Nat`). -/
theorem calcGasLimit_bounds (p : Block)
    (h1 : MinGasLimit ≤ p.header.gasLimit)
    (h2 : p.header.gasLimit ≤ 9223372036854775808)
    (h3 : p.header.gasUsed ≤ p.header.gasLimit) :
    MinGasLimit ≤ CalcGasLimit p ∧
    CalcGasLimit p ≤ p.header.gasLimit + (p.header.gasLimit / GasLimitBoundDivisor - 1) ∧
    p.header.gasLimit ≤ CalcGasLimit p + (p.header.gasLimit / GasLimitBoundDivisor - 1) := by
  have h1b : MinGasLimit ≤ p.header.gasLimit := h1
  simp only [MinGasLimit] at h1b
  have hdecay : gasDecay p = p.header.gasLimit / 1024 - 1 := by
    simp only [gasDecay, sub64, U64MOD, GasLimitBoundDivisor]
    omega
  have hcontrib : gasContrib p = (p.header.gasUsed + p.header.gasUsed / 2) / 1024 := by
    simp only [gasContrib, add64, U64MOD, GasLimitBoundDivisor]
    have hb : p.header.gasUsed + p.header.gasUsed / 2 < 18446744073709551616 := by omega
    rw [Nat.mod_eq_of_lt hb]
  have hsub : sub64 p.header.gasLimit (gasDecay p) =
      p.header.gasLimit - (p.header.gasLimit / 1024 - 1) := by
    simp only [sub64, U64MOD, hdecay]
    omega
  have hlimit0 : add64 (sub64 p.header.gasLimit (gasDecay p)) (gasContrib p) =
      p.header.gasLimit - (p.header.gasLimit / 1024 - 1) +
        (p.header.gasUsed + p.header.gasUsed / 2) / 1024 := by
    simp only [add64, U64MOD, hsub, hcontrib]
    have hb : p.header.gasLimit - (p.header.gasLimit / 1024 - 1) +
        (p.header.gasUsed + p.header.gasUsed / 2) / 1024 < 18446744073709551616 := by omega
    rw [Nat.mod_eq_of_lt hb]
  have hlimit2 : add64 p.header.gasLimit (gasDecay p) =
      p.header.gasLimit + (p.header.gasLimit / 1024 - 1) := by
    simp only [add64, U64MOD, hdecay]
    have hb : p.header.gasLimit + (p.header.gasLimit / 1024 - 1) <
        18446744073709551616 := by omega
    rw [Nat.mod_eq_of_lt hb]
  simp only [CalcGasLimit, hlimit0, hlimit2, GasLimitBoundDivisor, MinGasLimit,
    TargetGasLimit]
  split_ifs <;> omega

/-- C3 witness: the amended bounds at a parent with gas limit 100000 and gas
used 50000. -/
theorem calcGasLimit_bounds_witness :
    MinGasLimit ≤ CalcGasLimit blockGasW ∧
    CalcGasLimit blockGasW ≤
      blockGasW.header.gasLimit + (blockGasW.header.gasLimit / GasLimitBoundDivisor - 1) ∧
    blockGasW.header.gasLimit ≤
      CalcGasLimit blockGasW + (blockGasW.header.gasLimit / GasLimitBoundDivisor - 1) :=
  calcGasLimit_bounds blockGasW (by decide) (by decide) (by decide)
